import Mathlib

/-!
Verification of the MeetUp friend-matching engine
(`src/MeetUp/friend_matching_service.py`).

Embedding conventions:
* Python floats are modelled as exact rationals (`ℚ`); none of the verified
  properties depend on floating-point rounding.
* Wall-clock times `"HH:MM"` are modelled as hour/minute pairs; `parse_time`
  yields minutes since midnight, exactly the value
  `datetime.strptime(t, "%H:%M")` contributes to the minute difference
  `(t2 - t1).total_seconds() / 60` in the source.  Since parsed times are
  whole minutes, the source's `int(...)` truncation is the identity on the
  computed differences, which are already integers.
* The Euclidean-distance test `sqrt(dx² + dy²) < 0.0005` of the source is
  modelled by the equivalent squared comparison `dx² + dy² < 0.0005²`
  (both sides are nonnegative, so the two are equivalent over the reals).
* Repositories (injected collaborators) are records of functions; the
  connection store is threaded explicitly where persistence matters.
-/

namespace MeetUp

/-- A class record: the fields of the Python class dictionaries
(`course`, `building`, `day`, `start_time`, `end_time`), with the two
times as (hour, minute) pairs. -/
structure ClassRec where
  course : String
  building : String
  day : String
  start_time : Nat × Nat
  end_time : Nat × Nat
deriving DecidableEq

/-- `Schedule` dataclass: user id, class list and recorded walking paths
(lists of (latitude, longitude) pairs). -/
structure Schedule where
  user_id : Int
  classes : List ClassRec
  walking_paths : List (List (ℚ × ℚ))
deriving DecidableEq

/-- `FriendSuggestion` dataclass. -/
structure FriendSuggestion where
  suggested_user_id : Int
  score : ℚ
  shared_classes : List String
  path_overlap_percent : ℚ
  time_proximity_minutes : Int
deriving DecidableEq

/-- `self.MIN_PATH_OVERLAP = 0.30` -/
def MIN_PATH_OVERLAP : ℚ := 0.30

/-- `self.TIME_PROXIMITY_THRESHOLD = 15` -/
def TIME_PROXIMITY_THRESHOLD : Nat := 15

/-- `PROXIMITY_THRESHOLD = 0.0005` (local constant of
`_calculate_single_path_overlap`). -/
def PROXIMITY_THRESHOLD : ℚ := 0.0005

/-- `_parse_time`: minutes since midnight of an `"HH:MM"` time. -/
def parse_time (t : Nat × Nat) : Nat :=
  t.1 * 60 + t.2

/-- Running minimum used by `_calculate_time_proximity`: `none` plays the
role of the initial `float('inf')`. -/
def minAcc (acc : Option Nat) (d : Nat) : Option Nat :=
  match acc with
  | none => some d
  | some m => some (min m d)

/-- `abs((candidate_start - user_end).total_seconds() / 60)` for one pair of
classes, in whole minutes. -/
def class_diff (user_class candidate_class : ClassRec) : Nat :=
  ((parse_time candidate_class.start_time : Int) -
    (parse_time user_class.end_time : Int)).natAbs

/-- `_calculate_time_proximity`: minimum over same-day pairs of the absolute
candidate-start/user-end difference; `-1` when the minimum is absent
(`float('inf')`) or exceeds the 15-minute threshold. -/
def calculate_time_proximity (user_classes candidate_classes : List ClassRec) : Int :=
  let min_diff := user_classes.foldl (fun acc user_class =>
    candidate_classes.foldl (fun acc candidate_class =>
      if user_class.day ≠ candidate_class.day then acc
      else minAcc acc (class_diff user_class candidate_class)) acc)
    (none : Option Nat)
  match min_diff with
  | some d => if d ≤ TIME_PROXIMITY_THRESHOLD then (d : Int) else -1
  | none => -1

/-- The collection of minute differences the spec quantifies over: one entry
`|candidate start − user end|` for every pair of classes on the same day. -/
def same_day_diffs (user_classes candidate_classes : List ClassRec) : List Nat :=
  user_classes.flatMap (fun user_class =>
    (candidate_classes.filter (fun candidate_class =>
      decide (user_class.day = candidate_class.day))).map (class_diff user_class))

/-- Spec-side formulation of the time proximity (§4.2 step 2), for the
refinement claim: the minimum over all same-day pairs of the absolute
candidate-start/user-end difference, with `-1` when no same-day pair exists
or the minimum exceeds 15 minutes (a minimum of exactly 15 is kept). -/
def time_proximity_spec (user_classes candidate_classes : List ClassRec) : Int :=
  match (same_day_diffs user_classes candidate_classes).min? with
  | some m => if m ≤ 15 then (m : Int) else -1
  | none => -1

/-- `_calculate_single_path_overlap`: fraction of `path1` points having some
`path2` point within distance `0.0005`; the `break` in the source counts each
`path1` point at most once, i.e. exactly the points satisfying the
existential tested by `List.any`. -/
def calculate_single_path_overlap (path1 path2 : List (ℚ × ℚ)) : ℚ :=
  if path1 = [] ∨ path2 = [] then 0
  else
    (((path1.filter (fun point1 =>
      path2.any (fun point2 =>
        decide ((point1.1 - point2.1) ^ 2 + (point1.2 - point2.2) ^ 2 <
          PROXIMITY_THRESHOLD ^ 2)))).length : ℚ) / (path1.length : ℚ))

/-- The nested accumulation loop of `_calculate_path_overlap`, producing the
pair `(total_overlap, comparisons)`. -/
def overlap_fold (user_paths candidate_paths : List (List (ℚ × ℚ))) : ℚ × Nat :=
  user_paths.foldl (fun acc user_path =>
    candidate_paths.foldl (fun acc candidate_path =>
      (acc.1 + calculate_single_path_overlap user_path candidate_path,
        acc.2 + 1)) acc)
    ((0 : ℚ), (0 : Nat))

/-- `_calculate_path_overlap`: average of the per-pair overlaps,
`total_overlap / comparisons if comparisons > 0 else 0.0`. -/
def calculate_path_overlap (user_paths candidate_paths : List (List (ℚ × ℚ))) : ℚ :=
  if user_paths = [] ∨ candidate_paths = [] then 0
  else if 0 < (overlap_fold user_paths candidate_paths).2 then
    (overlap_fold user_paths candidate_paths).1 /
      ((overlap_fold user_paths candidate_paths).2 : ℚ)
  else 0

/-- `shared_classes = list(user_classes & candidate_classes)`: the distinct
course codes of the user that also occur in the candidate's classes. -/
def shared_courses (user_schedule candidate_schedule : Schedule) : List String :=
  ((user_schedule.classes.map (fun cls => cls.course)).dedup).filter
    (fun c => decide (c ∈ candidate_schedule.classes.map (fun cls => cls.course)))

/-- The composite score of `_evaluate_match`:
`len(shared_classes) * 0.4 + path_overlap * 0.4 + (1.0 if time_proximity > 0 else 0) * 0.2`. -/
def match_score (user_schedule candidate_schedule : Schedule) : ℚ :=
  ((shared_courses user_schedule candidate_schedule).length : ℚ) * 0.4 +
  calculate_path_overlap user_schedule.walking_paths candidate_schedule.walking_paths * 0.4 +
  (if 0 < calculate_time_proximity user_schedule.classes candidate_schedule.classes
    then (1.0 : ℚ) else 0) * 0.2

/-- `_evaluate_match`: rejects when `score < 0.3`, or when no class is shared
and the path overlap is below `MIN_PATH_OVERLAP`; otherwise builds the
suggestion record. -/
def evaluate_match (user_schedule candidate_schedule : Schedule) :
    Option FriendSuggestion :=
  if match_score user_schedule candidate_schedule < 0.3 then none
  else if (shared_courses user_schedule candidate_schedule).length = 0 ∧
      calculate_path_overlap user_schedule.walking_paths
        candidate_schedule.walking_paths < MIN_PATH_OVERLAP then none
  else some
    { suggested_user_id := candidate_schedule.user_id
      score := match_score user_schedule candidate_schedule
      shared_classes := shared_courses user_schedule candidate_schedule
      path_overlap_percent :=
        calculate_path_overlap user_schedule.walking_paths
          candidate_schedule.walking_paths * 100
      time_proximity_minutes :=
        calculate_time_proximity user_schedule.classes candidate_schedule.classes }

/-- A row of `get_connections`: only the counterpart id is consumed. -/
structure ConnectionRow where
  other_user_id : Int
deriving DecidableEq

/-- A row of `get_blocked_users`: only the blocked id is consumed. -/
structure BlockRow where
  blocked_user_id : Int
deriving DecidableEq

/-- The schedule repository collaborator (§6 contract). -/
structure ScheduleRepo where
  get_schedule_by_user : Int → Option Schedule
  get_schedules_by_university : Int → List Int → List Schedule

/-- The read side of the connection repository used by suggestion
generation. -/
structure ConnectionRepoView where
  get_connections : Int → List ConnectionRow
  get_blocked_users : Int → List BlockRow

/-- The exclude list `list(existing_ids | blocked_ids | {user_id})` passed to
the population query (a set union, modelled as a deduplicated list). -/
def exclude_ids (crepo : ConnectionRepoView) (user_id : Int) : List Int :=
  (((crepo.get_connections user_id).map (fun conn => conn.other_user_id)) ++
    ((crepo.get_blocked_users user_id).map (fun b => b.blocked_user_id)) ++
    [user_id]).dedup

/-- `generate_suggestions`: absent schedule short-circuits to `[]`; otherwise
score the candidate pool, keep positive scores, sort descending by score
(stably, as Python's `sort(..., reverse=True)`), truncate to `limit`. -/
def generate_suggestions (srepo : ScheduleRepo) (crepo : ConnectionRepoView)
    (user_id : Int) (limit : Nat) : List FriendSuggestion :=
  match srepo.get_schedule_by_user user_id with
  | none => []
  | some user_schedule =>
    let candidate_schedules := srepo.get_schedules_by_university
      user_schedule.user_id (exclude_ids crepo user_id)
    let suggestions := candidate_schedules.filterMap (fun candidate_schedule =>
      match evaluate_match user_schedule candidate_schedule with
      | some s => if 0 < s.score then some s else none
      | none => none)
    (suggestions.mergeSort (fun a b => decide (b.score ≤ a.score))).take limit

/-- `Connection` record as persisted by the collaborator (§3/§6): the two
user ids, a status string and the `suggested_at` timestamp. -/
structure Connection where
  user1_id : Int
  user2_id : Int
  status : String
  suggested_at : Nat
deriving DecidableEq

/-- The mutation-side connection repository collaborator (§6 contract):
`get_connection_between` and the directional `is_blocked` query. -/
structure ConnectionRepo where
  get_connection_between : Int → Int → Option Connection
  is_blocked : Int → Int → Bool

/-- Modelled from the spec: the collaborator operation
`create_connection(user1_id, user2_id, status, suggested_at) → Connection`
(§6), whose implementation is outside `src/`.  It persists a new connection
(appends it to the store) and returns it. -/
def create_connection (store : List Connection) (user1_id user2_id : Int)
    (status : String) (suggested_at : Nat) : Connection × List Connection :=
  let conn : Connection := ⟨user1_id, user2_id, status, suggested_at⟩
  (conn, store ++ [conn])

/-- `_is_blocked`: true when either user has blocked the other. -/
def is_blocked_either (repo : ConnectionRepo) (user1_id user2_id : Int) : Bool :=
  repo.is_blocked user1_id user2_id || repo.is_blocked user2_id user1_id

/-- `create_connection_request`: conflict (a `ValueError`, modelled as
`Except.error`) when a connection already exists or either user blocked the
other; in both failure branches the store is untouched because the exception
is raised before `create_connection` is reached.  On success, persists a
`pending` connection stamped `now` and returns it unchanged. -/
def create_connection_request (repo : ConnectionRepo) (store : List Connection)
    (now : Nat) (requesting_user_id target_user_id : Int) :
    Except String Connection × List Connection :=
  match repo.get_connection_between requesting_user_id target_user_id with
  | some _ => (Except.error ("Connection already exists or is pending"), store)
  | none =>
    if is_blocked_either repo requesting_user_id target_user_id then
      (Except.error ("Cannot connect with blocked user"), store)
    else
      let r := create_connection store requesting_user_id target_user_id
        ("pending") now
      (Except.ok r.1, r.2)

/-- The dictionary literal returned by `accept_connection`. -/
structure AcceptedConnection where
  id : Int
  status : String
  connected_at : Nat
deriving DecidableEq

/-- `accept_connection`: builds `{'id': connection_id, 'status': 'accepted',
'connected_at': now}` and returns it; it never consults the repositories nor
the store, which is returned unchanged. -/
def accept_connection (repo : ConnectionRepo) (store : List Connection)
    (connection_id accepting_user_id : Int) (now : Nat) :
    AcceptedConnection × List Connection :=
  (⟨connection_id, "accepted", now⟩, store)

/-! ## Concrete instances used in closed theorems and witnesses -/

/-- CS101, Monday 09:00–10:00. -/
def clsA : ClassRec := ⟨"CS101", "B1", "Monday", (9, 0), (10, 0)⟩

/-- ENG202, Monday 10:05–11:00. -/
def clsB : ClassRec := ⟨"ENG202", "B2", "Monday", (10, 5), (11, 0)⟩

/-- A user taking only CS101, no recorded paths. -/
def schedU : Schedule := ⟨1, [clsA], []⟩

/-- A candidate also taking only CS101, no recorded paths. -/
def schedC : Schedule := ⟨2, [clsA], []⟩

/-- A schedule with no classes and no paths. -/
def schedEmpty1 : Schedule := ⟨1, [], []⟩

/-- A second schedule with no classes and no paths. -/
def schedEmpty2 : Schedule := ⟨2, [], []⟩

/-- Three courses on three days, shared by `schedM1` and `schedM2`. -/
def threeClasses : List ClassRec :=
  [⟨"M1", "B1", "Monday", (9, 0), (10, 0)⟩,
   ⟨"M2", "B2", "Tuesday", (9, 0), (10, 0)⟩,
   ⟨"M3", "B3", "Wednesday", (9, 0), (10, 0)⟩]

/-- A user sharing three courses with `schedM2`. -/
def schedM1 : Schedule := ⟨1, threeClasses, []⟩

/-- A candidate sharing three courses with `schedM1`. -/
def schedM2 : Schedule := ⟨2, threeClasses, []⟩

/-- The suggestion `_evaluate_match` produces for `schedU` and `schedC`. -/
def suggUC : FriendSuggestion := ⟨2, 0.4, ["CS101"], 0, -1⟩

/-- Schedule repository double: user 1 has `schedU`; the population query
returns `schedC` regardless of the exclude list (its single entry, user 2,
is not excluded). -/
def srepoTest : ScheduleRepo :=
  ⟨fun uid => if uid = 1 then some schedU else none, fun _ _ => [schedC]⟩

/-- Schedule repository double with no schedules at all. -/
def srepoEmpty : ScheduleRepo := ⟨fun _ => none, fun _ _ => []⟩

/-- Connection repository double: user 5 is connected, user 6 blocked. -/
def crepoTest : ConnectionRepoView := ⟨fun _ => [⟨5⟩], fun _ => [⟨6⟩]⟩

/-- Mutation-side repository double: no existing connections; user 2 has
blocked user 1 (one direction only). -/
def repoBlockedRev : ConnectionRepo :=
  ⟨fun _ _ => none, fun x y => decide (x = 2 ∧ y = 1)⟩

/-- Mutation-side repository double with no connections and no blocks. -/
def repoFree : ConnectionRepo := ⟨fun _ _ => none, fun _ _ => false⟩

/-! ## Helper lemmas -/

lemma foldl_minAcc_some (l : List Nat) :
    ∀ a : Nat, l.foldl minAcc (some a) = some (l.foldl min a) := by
  induction l with
  | nil => intro a; rfl
  | cons b bs ih => intro a; simpa [minAcc] using ih (min a b)

lemma foldl_minAcc_none (l : List Nat) : l.foldl minAcc none = l.min? := by
  cases l with
  | nil => rfl
  | cons a as =>
    show as.foldl minAcc (minAcc none a) = _
    rw [show minAcc none a = some a from rfl, foldl_minAcc_some]
    simp [List.min?]

lemma inner_foldl_eq (user_class : ClassRec) (candidate_classes : List ClassRec) :
    ∀ acc : Option Nat,
      candidate_classes.foldl (fun acc candidate_class =>
        if user_class.day ≠ candidate_class.day then acc
        else minAcc acc (class_diff user_class candidate_class)) acc
      = ((candidate_classes.filter (fun candidate_class =>
          decide (user_class.day = candidate_class.day))).map
            (class_diff user_class)).foldl minAcc acc := by
  induction candidate_classes with
  | nil => intro acc; rfl
  | cons c cs ih =>
    intro acc
    rw [List.foldl_cons, List.filter_cons]
    by_cases h : user_class.day = c.day
    · rw [if_neg (not_not_intro h), if_pos (by simpa using h), List.map_cons,
        List.foldl_cons]
      exact ih _
    · rw [if_pos h, if_neg (by simpa using h)]
      exact ih _

lemma outer_foldl_eq (user_classes candidate_classes : List ClassRec) :
    ∀ acc : Option Nat,
      user_classes.foldl (fun acc user_class =>
        candidate_classes.foldl (fun acc candidate_class =>
          if user_class.day ≠ candidate_class.day then acc
          else minAcc acc (class_diff user_class candidate_class)) acc) acc
      = (same_day_diffs user_classes candidate_classes).foldl minAcc acc := by
  induction user_classes with
  | nil => intro acc; rfl
  | cons u us ih =>
    intro acc
    rw [List.foldl_cons, inner_foldl_eq, ih, same_day_diffs, same_day_diffs,
      List.flatMap_cons, List.foldl_append]

lemma match_score_eval {u c : Schedule} {ns : Nat} {q : ℚ} {t : Int}
    (hs : (shared_courses u c).length = ns)
    (hp : calculate_path_overlap u.walking_paths c.walking_paths = q)
    (ht : calculate_time_proximity u.classes c.classes = t) :
    match_score u c =
      (ns : ℚ) * 0.4 + q * 0.4 + (if 0 < t then (1.0 : ℚ) else 0) * 0.2 := by
  unfold match_score
  rw [hs, hp, ht]

lemma evaluate_match_eq_some {u c : Schedule} {s : FriendSuggestion}
    (h : evaluate_match u c = some s) :
    s = ⟨c.user_id, match_score u c, shared_courses u c,
      calculate_path_overlap u.walking_paths c.walking_paths * 100,
      calculate_time_proximity u.classes c.classes⟩ := by
  unfold evaluate_match at h
  split_ifs at h
  all_goals first
  | exact (Option.some.inj h).symm
  | exact Option.noConfusion h

lemma eval_match_suggUC : evaluate_match schedU schedC = some suggUC := by
  have h1 : shared_courses schedU schedC = ["CS101"] := by decide
  have h2 : calculate_path_overlap schedU.walking_paths schedC.walking_paths = 0 :=
    rfl
  have h3 : calculate_time_proximity schedU.classes schedC.classes = -1 := by
    decide
  have hs : match_score schedU schedC = 0.4 := by
    rw [match_score_eval (show (shared_courses schedU schedC).length = 1 by
      decide) h2 h3]
    norm_num
  unfold evaluate_match
  rw [if_neg (by rw [hs]; norm_num), if_neg (by rw [h1]; simp)]
  rw [hs, h1, h2, h3]
  have h100 : (0 : ℚ) * 100 = 0 := by norm_num
  rw [h100]
  rfl

lemma single_overlap_nonneg (p1 p2 : List (ℚ × ℚ)) :
    0 ≤ calculate_single_path_overlap p1 p2 := by
  unfold calculate_single_path_overlap
  split_ifs
  · exact le_refl 0
  · exact div_nonneg (Nat.cast_nonneg _) (Nat.cast_nonneg _)

lemma single_overlap_le_one (p1 p2 : List (ℚ × ℚ)) :
    calculate_single_path_overlap p1 p2 ≤ 1 := by
  unfold calculate_single_path_overlap
  split_ifs with h
  · exact zero_le_one
  · push_neg at h
    have hlen : 0 < p1.length := List.length_pos.mpr h.1
    rw [div_le_one (by exact_mod_cast hlen)]
    exact_mod_cast List.length_filter_le _ _

lemma overlap_fold_inner_invariant (user_path : List (ℚ × ℚ))
    (candidate_paths : List (List (ℚ × ℚ))) :
    ∀ acc : ℚ × Nat, 0 ≤ acc.1 → acc.1 ≤ (acc.2 : ℚ) →
      0 ≤ (candidate_paths.foldl (fun acc candidate_path =>
        (acc.1 + calculate_single_path_overlap user_path candidate_path,
          acc.2 + 1)) acc).1 ∧
      (candidate_paths.foldl (fun acc candidate_path =>
        (acc.1 + calculate_single_path_overlap user_path candidate_path,
          acc.2 + 1)) acc).1 ≤
      ((candidate_paths.foldl (fun acc candidate_path =>
        (acc.1 + calculate_single_path_overlap user_path candidate_path,
          acc.2 + 1)) acc).2 : ℚ) := by
  induction candidate_paths with
  | nil => exact fun acc h0 h1 => ⟨h0, h1⟩
  | cons p ps ih =>
    intro acc h0 h1
    rw [List.foldl_cons]
    apply ih
    · have hp := single_overlap_nonneg user_path p
      dsimp only
      linarith
    · have hp := single_overlap_le_one user_path p
      dsimp only
      push_cast
      linarith

lemma overlap_fold_outer_invariant (user_paths candidate_paths :
    List (List (ℚ × ℚ))) :
    ∀ acc : ℚ × Nat, 0 ≤ acc.1 → acc.1 ≤ (acc.2 : ℚ) →
      0 ≤ (user_paths.foldl (fun acc user_path =>
        candidate_paths.foldl (fun acc candidate_path =>
          (acc.1 + calculate_single_path_overlap user_path candidate_path,
            acc.2 + 1)) acc) acc).1 ∧
      (user_paths.foldl (fun acc user_path =>
        candidate_paths.foldl (fun acc candidate_path =>
          (acc.1 + calculate_single_path_overlap user_path candidate_path,
            acc.2 + 1)) acc) acc).1 ≤
      ((user_paths.foldl (fun acc user_path =>
        candidate_paths.foldl (fun acc candidate_path =>
          (acc.1 + calculate_single_path_overlap user_path candidate_path,
            acc.2 + 1)) acc) acc).2 : ℚ) := by
  induction user_paths with
  | nil => exact fun acc h0 h1 => ⟨h0, h1⟩
  | cons p ps ih =>
    intro acc h0 h1
    rw [List.foldl_cons]
    exact ih _ (overlap_fold_inner_invariant p candidate_paths acc h0 h1).1
      (overlap_fold_inner_invariant p candidate_paths acc h0 h1).2

lemma overlap_fold_bounds (user_paths candidate_paths : List (List (ℚ × ℚ))) :
    0 ≤ (overlap_fold user_paths candidate_paths).1 ∧
    (overlap_fold user_paths candidate_paths).1 ≤
      ((overlap_fold user_paths candidate_paths).2 : ℚ) := by
  unfold overlap_fold
  exact overlap_fold_outer_invariant user_paths candidate_paths
    ((0 : ℚ), (0 : Nat)) (le_refl 0) (by norm_num)

lemma path_overlap_nonneg (user_paths candidate_paths : List (List (ℚ × ℚ))) :
    0 ≤ calculate_path_overlap user_paths candidate_paths := by
  unfold calculate_path_overlap
  split_ifs
  · exact le_refl 0
  · exact div_nonneg (overlap_fold_bounds user_paths candidate_paths).1
      (Nat.cast_nonneg _)
  · exact le_refl 0

lemma path_overlap_le_one (user_paths candidate_paths : List (List (ℚ × ℚ))) :
    calculate_path_overlap user_paths candidate_paths ≤ 1 := by
  unfold calculate_path_overlap
  split_ifs with h hpos
  · exact zero_le_one
  · rw [div_le_one (by exact_mod_cast hpos)]
    exact (overlap_fold_bounds user_paths candidate_paths).2
  · exact zero_le_one

lemma mem_exclude_ids (crepo : ConnectionRepoView) (uid x : Int) :
    x ∈ exclude_ids crepo uid ↔
      x ∈ (crepo.get_connections uid).map (fun conn => conn.other_user_id) ∨
      x ∈ (crepo.get_blocked_users uid).map (fun b => b.blocked_user_id) ∨
      x = uid := by
  unfold exclude_ids
  simp [List.mem_dedup, List.mem_append, or_assoc]

/-! ## Claim theorems -/

/-- C1: the composite score is `0.4·|shared| + 0.4·path_overlap +
0.2·(1.0 if time_proximity > 0 else 0.0)`; a pair sharing exactly one course
with zero path overlap and no time proximity scores exactly `0.4` and yields
a suggestion; and the score exceeds `1.0` when several classes are shared. -/
theorem evaluate_match_score_formula :
    (∀ u c : Schedule, match_score u c =
      0.4 * ((shared_courses u c).length : ℚ) +
      0.4 * calculate_path_overlap u.walking_paths c.walking_paths +
      0.2 * (if 0 < calculate_time_proximity u.classes c.classes
        then (1.0 : ℚ) else 0.0)) ∧
    (∀ u c : Schedule, (shared_courses u c).length = 1 →
      calculate_path_overlap u.walking_paths c.walking_paths = 0 →
      calculate_time_proximity u.classes c.classes = -1 →
      match_score u c = 0.4 ∧ evaluate_match u c ≠ none) ∧
    (∃ u c : Schedule,
      2 ≤ (shared_courses u c).length ∧ 1 < match_score u c) := by
  refine ⟨?_, ?_, ?_⟩
  · intro u c
    unfold match_score
    ring
  · intro u c h1 h2 h3
    have hs : match_score u c = 0.4 := by
      rw [match_score_eval h1 h2 h3]
      norm_num
    refine ⟨hs, ?_⟩
    unfold evaluate_match
    rw [if_neg (by rw [hs]; norm_num), if_neg (by rw [h1]; simp)]
    exact fun hcon => Option.noConfusion hcon
  · refine ⟨schedM1, schedM2, by decide, ?_⟩
    have h1 : (shared_courses schedM1 schedM2).length = 3 := by decide
    have h2 : calculate_path_overlap schedM1.walking_paths
        schedM2.walking_paths = 0 := rfl
    have h3 : calculate_time_proximity schedM1.classes schedM2.classes = -1 := by
      decide
    rw [match_score_eval h1 h2 h3]
    norm_num

/-- C1 witness: `schedU` and `schedC` share exactly the course CS101, have no
paths and no time proximity; the score is exactly `0.4` and a suggestion is
produced. -/
theorem evaluate_match_score_formula_witness :
    (shared_courses schedU schedC).length = 1 ∧
    match_score schedU schedC = 0.4 ∧ evaluate_match schedU schedC ≠ none := by
  have h1 : (shared_courses schedU schedC).length = 1 := by decide
  have hm := evaluate_match_score_formula.2.1 schedU schedC h1 rfl (by decide)
  exact ⟨h1, hm.1, hm.2⟩

/-- C2: `_evaluate_match` returns `none` exactly when the score is below
`0.3`, or no course is shared and the path overlap is strictly below the
`0.30` threshold (so overlap exactly `0.30` is not rejected by that clause);
zero shared classes with zero overlap is always rejected. -/
theorem evaluate_match_rejection_iff :
    (∀ u c : Schedule, evaluate_match u c = none ↔
      (match_score u c < 0.3 ∨
        ((shared_courses u c).length = 0 ∧
          calculate_path_overlap u.walking_paths c.walking_paths <
            MIN_PATH_OVERLAP))) ∧
    (∀ u c : Schedule, (shared_courses u c).length = 0 →
      calculate_path_overlap u.walking_paths c.walking_paths = 0 →
      evaluate_match u c = none) := by
  constructor
  · intro u c
    unfold evaluate_match
    split_ifs with h1 h2
    · simp [h1]
    · simp [h1, h2]
    · constructor
      · intro hcon
        exact absurd hcon (by simp)
      · intro hcon
        rcases hcon with hl | hr
        · exact absurd hl h1
        · exact absurd hr h2
  · intro u c h1 h2
    have hs : match_score u c < 0.3 := by
      rw [match_score_eval h1 h2 rfl]
      split_ifs <;> norm_num
    unfold evaluate_match
    rw [if_pos hs]

/-- C2 witness: two scheduleless users share nothing and have no path
overlap, and indeed get no match. -/
theorem evaluate_match_rejection_iff_witness :
    evaluate_match schedEmpty1 schedEmpty2 = none :=
  evaluate_match_rejection_iff.2 schedEmpty1 schedEmpty2 rfl rfl

/-- C3: the time proximity computed by `_calculate_time_proximity` equals the
minimum, over all same-day pairs of one class from each schedule, of the
absolute difference in minutes between the candidate's start time and the
user's end time (an exact integer, so rounding toward zero is the identity);
it is the sentinel `-1` exactly when no same-day pair exists or that minimum
exceeds 15 minutes, a minimum of exactly 15 being kept. -/
theorem time_proximity_eq_spec (user_classes candidate_classes : List ClassRec) :
    calculate_time_proximity user_classes candidate_classes =
      time_proximity_spec user_classes candidate_classes ∧
    (calculate_time_proximity user_classes candidate_classes = -1 ↔
      same_day_diffs user_classes candidate_classes = [] ∨
      ∃ m, (same_day_diffs user_classes candidate_classes).min? = some m ∧
        15 < m) := by
  have heq : calculate_time_proximity user_classes candidate_classes =
      time_proximity_spec user_classes candidate_classes := by
    unfold calculate_time_proximity time_proximity_spec
    rw [outer_foldl_eq, foldl_minAcc_none]
    rfl
  refine ⟨heq, ?_⟩
  rw [heq]
  unfold time_proximity_spec
  cases hmin : (same_day_diffs user_classes candidate_classes).min? with
  | none =>
    simp only [List.min?_eq_none_iff] at hmin
    simp [hmin]
  | some m =>
    have hne : same_day_diffs user_classes candidate_classes ≠ [] := by
      intro h
      rw [h] at hmin
      exact Option.noConfusion hmin
    show (if m ≤ 15 then (m : Int) else -1) = -1 ↔ _
    by_cases hle : m ≤ 15
    · rw [if_pos hle]
      constructor
      · intro h
        exfalso
        omega
      · rintro (h | ⟨m2, hm2, h15⟩)
        · exact absurd h hne
        · cases hm2
          omega
    · rw [if_neg hle]
      exact ⟨fun _ => Or.inr ⟨m, rfl, by omega⟩, fun _ => rfl⟩

/-- C9: time proximity is not symmetric.  With `clsA` (ends 10:00) as the
user's class and `clsB` (starts 10:05) as the candidate's, the proximity is
5 minutes; with the roles swapped the only difference is
`|09:00 − 11:00| = 120 > 15`, giving the sentinel `-1`. -/
theorem time_proximity_asymmetric :
    calculate_time_proximity [clsA] [clsB] = 5 ∧
    calculate_time_proximity [clsB] [clsA] = -1 ∧
    calculate_time_proximity [clsA] [clsB] ≠
      calculate_time_proximity [clsB] [clsA] := by
  refine ⟨by decide, by decide, by decide⟩

/-- C6: the path overlap fraction always lies in `[0, 1]`, so the
`path_overlap_percent` recorded in any suggestion lies in `[0, 100]`; and if
either schedule has no recorded paths the overlap is exactly `0`. -/
theorem path_overlap_in_unit_interval :
    (∀ user_paths candidate_paths : List (List (ℚ × ℚ)),
      0 ≤ calculate_path_overlap user_paths candidate_paths ∧
      calculate_path_overlap user_paths candidate_paths ≤ 1) ∧
    (∀ (u c : Schedule) (s : FriendSuggestion), evaluate_match u c = some s →
      0 ≤ s.path_overlap_percent ∧ s.path_overlap_percent ≤ 100) ∧
    (∀ user_paths candidate_paths : List (List (ℚ × ℚ)),
      user_paths = [] ∨ candidate_paths = [] →
      calculate_path_overlap user_paths candidate_paths = 0) := by
  refine ⟨fun up cp => ⟨path_overlap_nonneg up cp, path_overlap_le_one up cp⟩,
    ?_, ?_⟩
  · intro u c s h
    rw [evaluate_match_eq_some h]
    dsimp only
    have h0 := path_overlap_nonneg u.walking_paths c.walking_paths
    have h1 := path_overlap_le_one u.walking_paths c.walking_paths
    constructor
    · linarith
    · linarith
  · intro up cp h
    unfold calculate_path_overlap
    rw [if_pos h]

/-- C6 witness: the suggestion produced for `schedU`/`schedC` has its percent
in `[0, 100]`, and the overlap of empty path sets is `0`. -/
theorem path_overlap_in_unit_interval_witness :
    (0 ≤ suggUC.path_overlap_percent ∧ suggUC.path_overlap_percent ≤ 100) ∧
    calculate_path_overlap [] [] = 0 :=
  ⟨path_overlap_in_unit_interval.2.1 schedU schedC suggUC eval_match_suggUC,
   path_overlap_in_unit_interval.2.2 [] [] (Or.inl rfl)⟩

/-- C5: when the schedule collaborator reports no schedule for the user,
`generate_suggestions` returns the empty sequence (a normal outcome of the
total function, not a failure). -/
theorem generate_suggestions_no_schedule
    (srepo : ScheduleRepo) (crepo : ConnectionRepoView) (user_id : Int)
    (limit : Nat) (h : srepo.get_schedule_by_user user_id = none) :
    generate_suggestions srepo crepo user_id limit = [] := by
  unfold generate_suggestions
  rw [h]

/-- C5 witness: the empty schedule repository yields an empty suggestion
list for user 7. -/
theorem generate_suggestions_no_schedule_witness :
    generate_suggestions srepoEmpty crepoTest 7 10 = [] :=
  generate_suggestions_no_schedule srepoEmpty crepoTest 7 10 rfl

/-- C4: for a user with a schedule, `generate_suggestions` returns at most
`limit` suggestions, sorted in descending score order, all with positive
score; and if the population collaborator honors the exclude list it is
passed, no suggestion names the requesting user, an existing connection or a
blocked user. -/
theorem generate_suggestions_sound
    (srepo : ScheduleRepo) (crepo : ConnectionRepoView) (user_id : Int)
    (limit : Nat) (us : Schedule)
    (hus : srepo.get_schedule_by_user user_id = some us)
    (hpop : ∀ s ∈ srepo.get_schedules_by_university us.user_id
        (exclude_ids crepo user_id), s.user_id ∉ exclude_ids crepo user_id) :
    (generate_suggestions srepo crepo user_id limit).length ≤ limit ∧
    List.Sorted (fun a b : FriendSuggestion => b.score ≤ a.score)
      (generate_suggestions srepo crepo user_id limit) ∧
    ∀ s ∈ generate_suggestions srepo crepo user_id limit,
      0 < s.score ∧
      s.suggested_user_id ≠ user_id ∧
      s.suggested_user_id ∉ (crepo.get_connections user_id).map
        (fun conn => conn.other_user_id) ∧
      s.suggested_user_id ∉ (crepo.get_blocked_users user_id).map
        (fun b => b.blocked_user_id) := by
  have hg : generate_suggestions srepo crepo user_id limit =
      (((srepo.get_schedules_by_university us.user_id
          (exclude_ids crepo user_id)).filterMap
        (fun candidate_schedule =>
          match evaluate_match us candidate_schedule with
          | some s => if 0 < s.score then some s else none
          | none => none)).mergeSort
            (fun a b => decide (b.score ≤ a.score))).take limit := by
    unfold generate_suggestions
    rw [hus]
  refine ⟨?_, ?_, ?_⟩
  · rw [hg]
    exact List.length_take_le _ _
  · rw [hg]
    have htrans : ∀ a b c : FriendSuggestion,
        decide (b.score ≤ a.score) = true → decide (c.score ≤ b.score) = true →
        decide (c.score ≤ a.score) = true := by
      intro a b c hab hbc
      rw [decide_eq_true_eq] at hab hbc ⊢
      exact le_trans hbc hab
    have htotal : ∀ a b : FriendSuggestion,
        (decide (b.score ≤ a.score) || decide (a.score ≤ b.score)) = true := by
      intro a b
      rw [Bool.or_eq_true, decide_eq_true_eq, decide_eq_true_eq]
      exact le_total _ _
    have hsorted := List.sorted_mergeSort htrans htotal
      ((srepo.get_schedules_by_university us.user_id
          (exclude_ids crepo user_id)).filterMap
        (fun candidate_schedule =>
          match evaluate_match us candidate_schedule with
          | some s => if 0 < s.score then some s else none
          | none => none))
    exact List.Pairwise.sublist (List.take_sublist _ _)
      (hsorted.imp fun hd => of_decide_eq_true hd)
  · intro s hs
    rw [hg] at hs
    have h1 := List.mem_of_mem_take hs
    have h2 := (List.mergeSort_perm _ _).subset h1
    obtain ⟨cs, hcs, hf⟩ := List.mem_filterMap.mp h2
    cases hev : evaluate_match us cs with
    | none =>
      rw [hev] at hf
      exact Option.noConfusion hf
    | some t =>
      rw [hev] at hf
      change (if 0 < t.score then some t else none) = some s at hf
      by_cases hpos : 0 < t.score
      · rw [if_pos hpos] at hf
        cases Option.some.inj hf
        have hid : s.suggested_user_id = cs.user_id := by
          rw [evaluate_match_eq_some hev]
        have hex := hpop cs hcs
        refine ⟨hpos, ?_, ?_, ?_⟩
        · intro heq
          exact hex ((mem_exclude_ids crepo user_id cs.user_id).mpr
            (Or.inr (Or.inr (by rw [← hid]; exact heq))))
        · intro hmem
          rw [hid] at hmem
          exact hex ((mem_exclude_ids crepo user_id cs.user_id).mpr
            (Or.inl hmem))
        · intro hmem
          rw [hid] at hmem
          exact hex ((mem_exclude_ids crepo user_id cs.user_id).mpr
            (Or.inr (Or.inl hmem)))
      · rw [if_neg hpos] at hf
        exact Option.noConfusion hf

/-- C4 witness: concrete repository doubles (user 1 with schedule `schedU`,
connection to user 5, block on user 6, population `[schedC]`) satisfy the
exclude-list hypothesis, and the conclusion holds at them. -/
theorem generate_suggestions_sound_witness :
    (generate_suggestions srepoTest crepoTest 1 10).length ≤ 10 ∧
    List.Sorted (fun a b : FriendSuggestion => b.score ≤ a.score)
      (generate_suggestions srepoTest crepoTest 1 10) ∧
    ∀ s ∈ generate_suggestions srepoTest crepoTest 1 10,
      0 < s.score ∧
      s.suggested_user_id ≠ 1 ∧
      s.suggested_user_id ∉ (crepoTest.get_connections 1).map
        (fun conn => conn.other_user_id) ∧
      s.suggested_user_id ∉ (crepoTest.get_blocked_users 1).map
        (fun b => b.blocked_user_id) :=
  generate_suggestions_sound srepoTest crepoTest 1 10 schedU rfl (by decide)

/-- C7: `create_connection_request` fails (with the store untouched, i.e.
`create_connection` never runs) when a connection between the two users
already exists or either has blocked the other, in either direction;
otherwise it persists a `pending` connection stamped with the current
timestamp and returns it unchanged. -/
theorem create_connection_request_conflict
    (repo : ConnectionRepo) (store : List Connection) (now : Nat)
    (requesting_user_id target_user_id : Int) :
    (((repo.get_connection_between requesting_user_id target_user_id).isSome
          = true ∨
        repo.is_blocked requesting_user_id target_user_id = true ∨
        repo.is_blocked target_user_id requesting_user_id = true) →
      (∃ msg, (create_connection_request repo store now requesting_user_id
          target_user_id).1 = Except.error msg) ∧
      (create_connection_request repo store now requesting_user_id
          target_user_id).2 = store) ∧
    (repo.get_connection_between requesting_user_id target_user_id = none →
      repo.is_blocked requesting_user_id target_user_id = false →
      repo.is_blocked target_user_id requesting_user_id = false →
      (create_connection_request repo store now requesting_user_id
          target_user_id).1 =
        Except.ok ⟨requesting_user_id, target_user_id, "pending", now⟩ ∧
      (create_connection_request repo store now requesting_user_id
          target_user_id).2 =
        store ++ [⟨requesting_user_id, target_user_id, "pending", now⟩]) := by
  constructor
  · intro h
    unfold create_connection_request
    cases hconn : repo.get_connection_between requesting_user_id
        target_user_id with
    | some c => exact ⟨⟨_, rfl⟩, rfl⟩
    | none =>
      have hb : is_blocked_either repo requesting_user_id target_user_id
          = true := by
        rcases h with h | h | h
        · rw [hconn] at h
          exact absurd h (by simp)
        · unfold is_blocked_either
          rw [h]
          rfl
        · unfold is_blocked_either
          rw [h]
          simp
      rw [hb]
      exact ⟨⟨_, rfl⟩, rfl⟩
  · intro hconn hb1 hb2
    have hb : is_blocked_either repo requesting_user_id target_user_id
        = false := by
      unfold is_blocked_either
      rw [hb1, hb2]
      rfl
    have hfull : create_connection_request repo store now requesting_user_id
        target_user_id =
        (Except.ok ⟨requesting_user_id, target_user_id, "pending", now⟩,
          store ++ [⟨requesting_user_id, target_user_id, "pending", now⟩]) := by
      unfold create_connection_request
      rw [hconn, hb]
      rfl
    exact ⟨by rw [hfull], by rw [hfull]⟩

/-- C7 witness: with user 2 having blocked user 1 (reverse direction only)
the request from 1 to 2 fails and persists nothing; with no connections and
no blocks it succeeds with a `pending` connection stamped 100. -/
theorem create_connection_request_conflict_witness :
    ((∃ msg, (create_connection_request repoBlockedRev [] 100 1 2).1 =
        Except.error msg) ∧
      (create_connection_request repoBlockedRev [] 100 1 2).2 = []) ∧
    ((create_connection_request repoFree [] 100 1 2).1 =
        Except.ok ⟨1, 2, "pending", 100⟩ ∧
      (create_connection_request repoFree [] 100 1 2).2 =
        [] ++ [⟨1, 2, "pending", 100⟩]) :=
  ⟨(create_connection_request_conflict repoBlockedRev [] 100 1 2).1
      (Or.inr (Or.inr (by decide))),
    (create_connection_request_conflict repoFree [] 100 1 2).2 rfl rfl rfl⟩

/-- C8: `accept_connection` returns a record with status `accepted`, the
given connection id and the current timestamp, performing no check that the
accepting user is a party to the connection or that it was pending: the
result is independent of the accepting user and of the repository state. -/
theorem accept_connection_no_validation
    (repo : ConnectionRepo) (store : List Connection)
    (connection_id accepting_user_id : Int) (now : Nat) :
    (accept_connection repo store connection_id accepting_user_id now).1.status
      = "accepted" ∧
    (accept_connection repo store connection_id accepting_user_id now).1.id
      = connection_id ∧
    (accept_connection repo store connection_id accepting_user_id
      now).1.connected_at = now ∧
    ∀ (repo2 : ConnectionRepo) (store2 : List Connection) (uid2 : Int),
      (accept_connection repo2 store2 connection_id uid2 now).1 =
        (accept_connection repo store connection_id accepting_user_id now).1 :=
  ⟨rfl, rfl, rfl, fun _ _ _ => rfl⟩

/-- C10: `accept_connection` never calls a repository, so the connection
store is unchanged, and the id and status of the returned record depend only
on `connection_id` (the status being always `accepted`), not on the
accepting user. -/
theorem accept_connection_frame
    (repo : ConnectionRepo) (store : List Connection)
    (connection_id accepting_user_id : Int) (now : Nat) :
    (accept_connection repo store connection_id accepting_user_id now).2
      = store ∧
    (accept_connection repo store connection_id accepting_user_id now).1.id
      = connection_id ∧
    (accept_connection repo store connection_id accepting_user_id now).1.status
      = "accepted" ∧
    ∀ (repo2 : ConnectionRepo) (store2 : List Connection) (uid2 : Int)
      (now2 : Nat),
      (accept_connection repo2 store2 connection_id uid2 now2).1.id =
        connection_id ∧
      (accept_connection repo2 store2 connection_id uid2 now2).1.status =
        "accepted" :=
  ⟨rfl, rfl, rfl, fun _ _ _ _ => ⟨rfl, rfl⟩⟩

end MeetUp
